import Mathlib

/-!
# Verification development for the thanos-limits-controller repository

Shallow embedding of `main.go`.  Go machine integers are modelled as `Int`
together with explicit two's-complement wrapping (`wrap64` for `int`,
`wrap32` for `int32`) applied exactly where the source performs arithmetic.
Go pointers used as optional values (`*int`, `*RequestConfig`,
`*TenantConfig`) are modelled as `Option`.  The Kubernetes API server is
modelled as an oracle (`ApiBehavior`) giving the outcome of each call the
code can make, and the publish routine additionally returns the exact
sequence of API calls it issued.
-/

namespace ThanosLimits

/-- Two's-complement wrap of a mathematical integer into the 64-bit range,
modelling Go's `int` arithmetic. -/
def wrap64 (x : Int) : Int := (x + 2 ^ 63) % 2 ^ 64 - 2 ^ 63

/-- Two's-complement wrap into the 32-bit range, modelling Go's `int32`. -/
def wrap32 (x : Int) : Int := (x + 2 ^ 31) % 2 ^ 32 - 2 ^ 31

/-- Go multiplication on `int` (64-bit, wrapping). -/
def goMul64 (a b : Int) : Int := wrap64 (a * b)

/-! ## The limits document model (`main.go` lines 38-63)

Each Go struct field carries its yaml tag; `*int` with `omitempty` becomes
`Option Int` (nil pointer = `none`), `map[string]*TenantConfig` becomes an
association list whose values are `Option TenantConfig` (a nil pointer
entry decodes from an explicit `null`). -/

/-- `RequestConfig`: three optional integer limits. -/
structure RequestConfig where
  sizeBytesLimit : Option Int
  seriesLimit : Option Int
  samplesLimit : Option Int
deriving DecidableEq, Repr

/-- `TenantConfig`: optional nested request config and optional head-series limit. -/
structure TenantConfig where
  request : Option RequestConfig
  headSeriesLimit : Option Int
deriving DecidableEq, Repr

/-- `GlobalConfig`: optional max concurrency plus two plain string fields. -/
structure GlobalConfig where
  maxConcurrency : Option Int
  metaMonitoringURL : String
  metaMonitoringLimitQuery : String
deriving DecidableEq, Repr

/-- `LimitsConfig`: global section, default tenant, named tenants. -/
structure LimitsConfig where
  global : GlobalConfig
  default : TenantConfig
  tenant : List (String × Option TenantConfig)
deriving DecidableEq, Repr

/-- `WriteConfig`: the root document, one `write` section. -/
structure WriteConfig where
  write : LimitsConfig
deriving DecidableEq, Repr

/-- Go zero value of `GlobalConfig`. -/
def GlobalConfig.zero : GlobalConfig := ⟨none, "", ""⟩

/-- Go zero value of `TenantConfig`. -/
def TenantConfig.zero : TenantConfig := ⟨none, none⟩

/-- Go zero value of `LimitsConfig`. -/
def LimitsConfig.zero : LimitsConfig := ⟨GlobalConfig.zero, TenantConfig.zero, []⟩

/-! ## YAML value trees

The serialized text form of a document is modelled by its parse tree; the
limits documents only ever hold integers, strings, nulls and string-keyed
mappings. -/

/-- A YAML value as it appears in the limits documents. -/
inductive Yaml where
  | int : Int → Yaml
  | str : String → Yaml
  | null : Yaml
  | map : List (String × Yaml) → Yaml
deriving Repr

/-- Walk a path of mapping keys down a YAML tree; `none` when a step is
absent or the node is not a mapping. -/
def yamlGetPath : Yaml → List String → Option Yaml
  | y, [] => some y
  | .map fs, k :: ks =>
    match fs.lookup k with
    | some v => yamlGetPath v ks
    | none => none
  | _, _ :: _ => none

/-! ## Marshalling (`yaml.Marshal` on the tagged structs, main.go line 259)

`omitempty` on a pointer omits the field exactly when the pointer is nil;
`omitempty` on the tenants map omits it when the map is empty; plain string
fields are always emitted. -/

/-- Marshal `RequestConfig`. -/
def marshalRequestConfig (r : RequestConfig) : Yaml :=
  .map ((match r.sizeBytesLimit with
          | some v => [("size_bytes_limit", Yaml.int v)]
          | none => []) ++
        (match r.seriesLimit with
          | some v => [("series_limit", Yaml.int v)]
          | none => []) ++
        (match r.samplesLimit with
          | some v => [("samples_limit", Yaml.int v)]
          | none => []))

/-- Marshal `TenantConfig`. -/
def marshalTenantConfig (t : TenantConfig) : Yaml :=
  .map ((match t.request with
          | some r => [("request", marshalRequestConfig r)]
          | none => []) ++
        (match t.headSeriesLimit with
          | some v => [("head_series_limit", Yaml.int v)]
          | none => []))

/-- Marshal `GlobalConfig`. -/
def marshalGlobalConfig (g : GlobalConfig) : Yaml :=
  .map ((match g.maxConcurrency with
          | some v => [("max_concurrency", Yaml.int v)]
          | none => []) ++
        [("meta_monitoring_url", Yaml.str g.metaMonitoringURL),
         ("meta_monitoring_limit_query", Yaml.str g.metaMonitoringLimitQuery)])

/-- Marshal `LimitsConfig`; the tenants mapping is omitted when empty. -/
def marshalLimitsConfig (l : LimitsConfig) : Yaml :=
  .map ([("global", marshalGlobalConfig l.global),
         ("default", marshalTenantConfig l.default)] ++
        (match l.tenant with
          | [] => []
          | ts => [("tenants",
              Yaml.map (ts.map (fun kv =>
                (kv.1, match kv.2 with
                       | some t => marshalTenantConfig t
                       | none => Yaml.null))))]))

/-- Marshal the root `WriteConfig`. -/
def marshalWriteConfig (c : WriteConfig) : Yaml :=
  .map [("write", marshalLimitsConfig c.write)]

/-! ## Unmarshalling (`yaml.Unmarshal` into the tagged structs, main.go line 247)

Unknown keys are ignored; a known field whose node has the wrong shape is a
hard decode error; a missing or `null` node leaves the Go zero value. -/

/-- The fields of a node decoded into a struct: a mapping gives its entries,
`null` gives no entries, anything else is a type error. -/
def yamlFields : Yaml → Except String (List (String × Yaml))
  | .map fs => .ok fs
  | .null => .ok []
  | _ => .error "cannot unmarshal into struct"

/-- Decode an optional `*int` field: absent or `null` stays nil, an integer
node sets it, anything else is a type error. -/
def decodeOptInt : Option Yaml → Except String (Option Int)
  | none => .ok none
  | some .null => .ok none
  | some (.int v) => .ok (some v)
  | some _ => .error "cannot unmarshal into int"

/-- Decode a plain `string` field: absent or `null` keeps the empty string. -/
def decodeStr : Option Yaml → Except String String
  | none => .ok ""
  | some .null => .ok ""
  | some (.str s) => .ok s
  | some _ => .error "cannot unmarshal into string"

/-- Decode a `RequestConfig` node. -/
def decodeRequestConfig (y : Yaml) : Except String RequestConfig :=
  match yamlFields y with
  | .error e => .error e
  | .ok fs =>
    match decodeOptInt (fs.lookup "size_bytes_limit") with
    | .error e => .error e
    | .ok sz =>
      match decodeOptInt (fs.lookup "series_limit") with
      | .error e => .error e
      | .ok se =>
        match decodeOptInt (fs.lookup "samples_limit") with
        | .error e => .error e
        | .ok sa => .ok ⟨sz, se, sa⟩

/-- Decode the optional `request` pointer field. -/
def decodeOptRequest : Option Yaml → Except String (Option RequestConfig)
  | none => .ok none
  | some .null => .ok none
  | some y =>
    match decodeRequestConfig y with
    | .error e => .error e
    | .ok r => .ok (some r)

/-- Decode a `TenantConfig` node. -/
def decodeTenantConfig (y : Yaml) : Except String TenantConfig :=
  match yamlFields y with
  | .error e => .error e
  | .ok fs =>
    match decodeOptRequest (fs.lookup "request") with
    | .error e => .error e
    | .ok r =>
      match decodeOptInt (fs.lookup "head_series_limit") with
      | .error e => .error e
      | .ok h => .ok ⟨r, h⟩

/-- Decode the `default` field (a struct value: absent keeps the zero value). -/
def decodeTenantAt : Option Yaml → Except String TenantConfig
  | none => .ok TenantConfig.zero
  | some y => decodeTenantConfig y

/-- Decode a `GlobalConfig` node. -/
def decodeGlobalConfig (y : Yaml) : Except String GlobalConfig :=
  match yamlFields y with
  | .error e => .error e
  | .ok fs =>
    match decodeOptInt (fs.lookup "max_concurrency") with
    | .error e => .error e
    | .ok mc =>
      match decodeStr (fs.lookup "meta_monitoring_url") with
      | .error e => .error e
      | .ok url =>
        match decodeStr (fs.lookup "meta_monitoring_limit_query") with
        | .error e => .error e
        | .ok q => .ok ⟨mc, url, q⟩

/-- Decode the `global` field (a struct value: absent keeps the zero value). -/
def decodeGlobalAt : Option Yaml → Except String GlobalConfig
  | none => .ok GlobalConfig.zero
  | some y => decodeGlobalConfig y

/-- Decode the entries of the tenants mapping; a `null` entry is a nil
`*TenantConfig`. -/
def decodeTenantEntries : List (String × Yaml) → Except String (List (String × Option TenantConfig))
  | [] => .ok []
  | (k, .null) :: rest =>
    match decodeTenantEntries rest with
    | .error e => .error e
    | .ok ts => .ok ((k, none) :: ts)
  | (k, y) :: rest =>
    match decodeTenantConfig y with
    | .error e => .error e
    | .ok t =>
      match decodeTenantEntries rest with
      | .error e => .error e
      | .ok ts => .ok ((k, some t) :: ts)

/-- Decode the optional `tenants` mapping (a nil map when absent or `null`). -/
def decodeTenantsAt : Option Yaml → Except String (List (String × Option TenantConfig))
  | none => .ok []
  | some .null => .ok []
  | some (.map fs) => decodeTenantEntries fs
  | some _ => .error "cannot unmarshal into map"

/-- Decode a `LimitsConfig` node. -/
def decodeLimitsConfig (y : Yaml) : Except String LimitsConfig :=
  match yamlFields y with
  | .error e => .error e
  | .ok fs =>
    match decodeGlobalAt (fs.lookup "global") with
    | .error e => .error e
    | .ok g =>
      match decodeTenantAt (fs.lookup "default") with
      | .error e => .error e
      | .ok d =>
        match decodeTenantsAt (fs.lookup "tenants") with
        | .error e => .error e
        | .ok t => .ok ⟨g, d, t⟩

/-- Decode the `write` field (a struct value: absent keeps the zero value). -/
def decodeLimitsAt : Option Yaml → Except String LimitsConfig
  | none => .ok LimitsConfig.zero
  | some y => decodeLimitsConfig y

/-- Decode the root document, as `yaml.Unmarshal` into `WriteConfig` does. -/
def unmarshalWriteConfig (y : Yaml) : Except String WriteConfig :=
  match yamlFields y with
  | .error e => .error e
  | .ok fs =>
    match decodeLimitsAt (fs.lookup "write") with
    | .error e => .error e
    | .ok w => .ok ⟨w⟩

/-! ## Command-line configuration (`CmdConfig`, main.go lines 27-34 and 79-90) -/

/-- `CmdConfig`: the parsed flags; the interval is in nanoseconds
(`time.Duration`). -/
structure CmdConfig where
  configMapName : String
  configMapLimitsPath : String
  configMapGeneratedName : String
  receiverLabel : String
  activeSeriesMax : Int
  interval : Int
deriving DecidableEq, Repr

/-- `CmdConfig.validate` (main.go lines 79-90). -/
def CmdConfig.validate (c : CmdConfig) : Except String Unit :=
  if c.configMapName = "" then
    .error "missing required flag: -configmap-name"
  else if c.activeSeriesMax = 0 then
    .error "missing or invalid flag: -active-series-max"
  else if c.configMapGeneratedName = "" then
    .error "missing required flag: -configmap-generated-name"
  else
    .ok ()

/-! ## Namespace resolution (`getCurrentNamespace`, main.go lines 184-210) -/

/-- A kubeconfig context (only the namespace field is read). -/
structure KubeContext where
  ns : String
deriving DecidableEq, Repr

/-- A loaded kubeconfig: the current-context name and the context table. -/
structure Kubeconfig where
  currentContext : String
  contexts : List (String × KubeContext)
deriving DecidableEq, Repr

/-- The environment `getCurrentNamespace` consults: the result of reading the
service-account namespace file (`none` when the read fails), the `NAMESPACE`
environment variable (`""` when unset, as `os.Getenv` reports), and the
result of loading the local kubeconfig (`none` when loading fails). -/
structure NamespaceSources where
  serviceAccountNamespaceFile : Option String
  namespaceEnvVar : String
  kubeconfigFile : Option Kubeconfig
deriving DecidableEq, Repr

/-- `getCurrentNamespace`: service-account file, then `NAMESPACE` variable,
then the kubeconfig current context, then the literal `"default"`. -/
def getCurrentNamespace (env : NamespaceSources) : String :=
  match env.serviceAccountNamespaceFile with
  | some data => data
  | none =>
    if env.namespaceEnvVar ≠ "" then
      env.namespaceEnvVar
    else
      match env.kubeconfigFile with
      | none => "default"
      | some cfg =>
        match cfg.contexts.lookup cfg.currentContext with
        | some ctx => if ctx.ns ≠ "" then ctx.ns else "default"
        | none => "default"

/-- The resolution order asserted by the specification sentence the claim
cites (explicit namespace environment variable first, then the in-cluster
service-account namespace file, then the local context configuration, then
the hardcoded default); stated only for comparison with
`getCurrentNamespace`. -/
def getCurrentNamespaceSpecOrder (env : NamespaceSources) : String :=
  if env.namespaceEnvVar ≠ "" then
    env.namespaceEnvVar
  else
    match env.serviceAccountNamespaceFile with
    | some data => data
    | none =>
      match env.kubeconfigFile with
      | none => "default"
      | some cfg =>
        match cfg.contexts.lookup cfg.currentContext with
        | some ctx => if ctx.ns ≠ "" then ctx.ns else "default"
        | none => "default"

/-! ## Ready-replica counting (`getRunningStatefulSets`, main.go lines 213-232) -/

/-- The status fields of a listed StatefulSet that the code reads; both
counts are `int32` values. -/
structure StatefulSetStatus where
  name : String
  replicas : Int
  readyReplicas : Int
deriving DecidableEq, Repr

/-- The mathematical sum of the ready-replica counts of a list. -/
def sumReady (items : List StatefulSetStatus) : Int :=
  (items.map (fun s => s.readyReplicas)).sum

/-- `getRunningStatefulSets`: fold the `int32` accumulation
`runningReplicas += sts.Status.ReadyReplicas` over the listed StatefulSets
(the final `int(...)` conversion preserves the value). -/
def getRunningStatefulSets (items : List StatefulSetStatus) : Int :=
  items.foldl (fun acc s => wrap32 (acc + s.readyReplicas)) 0

/-! ## Publishing (`createGeneratedConfigMap`, main.go lines 255-304) -/

/-- A ConfigMap as the code builds and receives it: name, resource version
and the data mapping (values kept as their YAML parse trees). -/
structure ConfigMap where
  name : String
  resourceVersion : String
  data : List (String × Yaml)

/-- One API call issued against the cluster. -/
inductive ApiOp where
  | create (cm : ConfigMap)
  | get (name : String)
  | update (cm : ConfigMap)

/-- The oracle for the API calls the publish routine can make: the create
outcome (`none` is success, `some msg` the error text), the get outcome, and
the update outcome. -/
structure ApiBehavior where
  createResult : Option String
  getResult : Except String ConfigMap
  updateResult : Option String

/-- Leading-match test on character lists (does `s` start with `pat`?). -/
def charsLeadWith : List Char → List Char → Bool
  | _, [] => true
  | [], _ :: _ => false
  | c :: cs, d :: ds => c == d && charsLeadWith cs ds

/-- Containment of `pat` in `s` over character lists. -/
def charsContain : List Char → List Char → Bool
  | [], pat => charsLeadWith [] pat
  | s@(_ :: cs), pat => charsLeadWith s pat || charsContain cs pat

/-- `strings.Contains`. -/
def strContains (s pat : String) : Bool := charsContain s.data pat.data

/-- The in-place mutation at main.go line 257:
`config.Write.Default.HeadSeriesLimit = &headSeriesValue`. -/
def setDefaultHeadSeriesLimit (config : WriteConfig) (headSeriesValue : Int) : WriteConfig :=
  { config with write :=
    { config.write with default :=
      { config.write.default with headSeriesLimit := some headSeriesValue } } }

/-- The aggregate-limit computation at main.go line 138:
`globalLimit := runningReplicas * cmdConfig.ActiveSeriesMax` on Go `int`. -/
def reconcileGlobalLimit (runningReplicas activeSeriesMax : Int) : Int :=
  goMul64 runningReplicas activeSeriesMax

/-- `createGeneratedConfigMap`: mutates the passed document, marshals it,
attempts a create, and on an "already exists" failure re-fetches the
existing ConfigMap and issues one update carrying its resource version.
Returns the caller's document after the call, the sequence of API calls
issued, and the returned error (`.ok ()` for a nil error — including the
fall-through `return nil` at main.go line 303 reached when the create fails
for a reason other than "already exists"). -/
def createGeneratedConfigMap (api : ApiBehavior) (configMapGeneratedName : String)
    (configMapPath : String) (config : WriteConfig) (headSeriesValue : Int) :
    WriteConfig × List ApiOp × Except String Unit :=
  let config' := setDefaultHeadSeriesLimit config headSeriesValue
  let updatedYAML := marshalWriteConfig config'
  let newConfigMap : ConfigMap :=
    ⟨configMapGeneratedName, "", [(configMapPath, updatedYAML)]⟩
  match api.createResult with
  | none => (config', [.create newConfigMap], .ok ())
  | some msg =>
    if strContains msg "already exists" then
      match api.getResult with
      | .error getErr =>
        (config', [.create newConfigMap, .get configMapGeneratedName],
         .error ("failed to fetch existing ConfigMap for update: " ++ getErr))
      | .ok existing =>
        let retried := { newConfigMap with resourceVersion := existing.resourceVersion }
        match api.updateResult with
        | some updateErr =>
          (config',
           [.create newConfigMap, .get configMapGeneratedName, .update retried],
           .error ("failed to update existing ConfigMap: " ++ updateErr))
        | none =>
          (config',
           [.create newConfigMap, .get configMapGeneratedName, .update retried],
           .ok ())
    else
      (config', [.create newConfigMap], .ok ())

/-! ## Helper notions for the round-trip analysis -/

/-- Path navigation lifted to an optional starting node. -/
def yamlGetPathAt (o : Option Yaml) (p : List String) : Option Yaml :=
  match o with
  | some y => yamlGetPath y p
  | none => none

/-- The integer carried by an optional node, when it is an integer node. -/
def optIntOf : Option Yaml → Option Int
  | some (.int v) => some v
  | _ => none

/-! ## Concrete fixtures used by the witness theorems -/

/-- A concrete operator-maintained base document. -/
def baseDoc : WriteConfig :=
  ⟨⟨⟨some 4, "http://prometheus.svc:9090", "sum(up)"⟩,
    ⟨some ⟨some 1024, none, some 200⟩, none⟩,
    [("tenant-a", some ⟨none, some 5⟩), ("tenant-b", none)]⟩⟩

/-- An API oracle whose create call succeeds. -/
def apiCreateOk : ApiBehavior := ⟨none, .error "unreachable", none⟩

/-- An API oracle where the create hits an existing ConfigMap and the
re-fetch and update both succeed. -/
def apiExists : ApiBehavior :=
  ⟨some "configmaps \x22generated\x22 already exists",
   .ok ⟨"generated", "rv-42", [("stale.yaml", Yaml.str "old")]⟩,
   none⟩

/-- An API oracle where the create hits an existing ConfigMap and the
re-fetch then fails. -/
def apiExistsGetFails : ApiBehavior :=
  ⟨some "configmaps \x22generated\x22 already exists",
   .error "connection refused",
   none⟩

/-- An API oracle whose create fails with a connectivity error. -/
def apiCreateFails : ApiBehavior :=
  ⟨some "connection refused", .error "unreachable", none⟩

/-- A concrete source document in serialized form: `max_concurrency` is
absent while `head_series_limit` and `series_limit` are explicit zeros. -/
def sourceYaml : Yaml :=
  .map [("write", .map
    [("global", .map [("meta_monitoring_url", .str "http://prometheus.svc:9090")]),
     ("default", .map
       [("request", .map [("series_limit", .int 0)]),
        ("head_series_limit", .int 0)])])]

/-- The document `sourceYaml` decodes to. -/
def decodedDoc : WriteConfig :=
  ⟨⟨⟨none, "http://prometheus.svc:9090", ""⟩,
    ⟨some ⟨none, some 0, none⟩, some 0⟩, []⟩⟩

theorem yamlFields_path_step (y : Yaml) (fs : List (String × Yaml)) (k : String)
    (ks : List String) (h : yamlFields y = .ok fs) :
    yamlGetPath y (k :: ks) = yamlGetPathAt (fs.lookup k) ks := by
  cases y with
  | int v => simp [yamlFields] at h
  | str s => simp [yamlFields] at h
  | null =>
    simp [yamlFields] at h
    subst h
    simp [yamlGetPath, yamlGetPathAt, List.lookup]
  | map fs' =>
    simp [yamlFields] at h
    subst h
    cases hl : fs'.lookup k with
    | none => simp [yamlGetPath, yamlGetPathAt, hl]
    | some v => simp [yamlGetPath, yamlGetPathAt, hl]

theorem yamlGetPath_append (p q : List String) (y : Yaml) :
    yamlGetPath y (p ++ q) = yamlGetPathAt (yamlGetPath y p) q := by
  induction p generalizing y with
  | nil => simp [yamlGetPath, yamlGetPathAt]
  | cons k ks ih =>
    cases y with
    | int v => simp [yamlGetPath, yamlGetPathAt]
    | str s => simp [yamlGetPath, yamlGetPathAt]
    | null => simp [yamlGetPath, yamlGetPathAt]
    | map fs =>
      cases hl : fs.lookup k with
      | none => simp [yamlGetPath, yamlGetPathAt, hl]
      | some v => simp [yamlGetPath, yamlGetPathAt, hl, ih]

theorem yamlFields_path_one (y : Yaml) (fs : List (String × Yaml)) (k : String)
    (h : yamlFields y = .ok fs) :
    yamlGetPath y [k] = fs.lookup k := by
  rw [yamlFields_path_step y fs k [] h]
  cases fs.lookup k <;> simp [yamlGetPathAt, yamlGetPath]

theorem decodeOptInt_ok (o : Option Yaml) (m : Option Int)
    (h : decodeOptInt o = .ok m) : m = optIntOf o := by
  cases o with
  | none => simp [decodeOptInt] at h; simp [optIntOf, ← h]
  | some y =>
    cases y <;> simp [decodeOptInt] at h <;> simp [optIntOf, ← h]

theorem decodeGlobalAt_maxConcurrency (o : Option Yaml) (g : GlobalConfig)
    (h : decodeGlobalAt o = .ok g) :
    g.maxConcurrency = optIntOf (yamlGetPathAt o ["max_concurrency"]) := by
  cases o with
  | none =>
    simp [decodeGlobalAt] at h
    simp [← h, GlobalConfig.zero, yamlGetPathAt, optIntOf]
  | some y =>
    simp only [decodeGlobalAt] at h
    unfold decodeGlobalConfig at h
    split at h
    · exact absurd h (by simp)
    · rename_i fs hf
      split at h
      · exact absurd h (by simp)
      · rename_i mc hmc
        split at h
        · exact absurd h (by simp)
        · rename_i url hurl
          split at h
          · exact absurd h (by simp)
          · rename_i q hq
            simp only [Except.ok.injEq] at h
            subst h
            simp only [yamlGetPathAt, yamlFields_path_one y fs _ hf]
            exact decodeOptInt_ok _ _ hmc

theorem decodeRequestConfig_ok (y : Yaml) (r : RequestConfig)
    (h : decodeRequestConfig y = .ok r) :
    ∃ fs, yamlFields y = .ok fs ∧
      r.sizeBytesLimit = optIntOf (fs.lookup "size_bytes_limit") ∧
      r.seriesLimit = optIntOf (fs.lookup "series_limit") ∧
      r.samplesLimit = optIntOf (fs.lookup "samples_limit") := by
  unfold decodeRequestConfig at h
  split at h
  · exact absurd h (by simp)
  · rename_i fs hf
    split at h
    · exact absurd h (by simp)
    · rename_i sz hsz
      split at h
      · exact absurd h (by simp)
      · rename_i se hse
        split at h
        · exact absurd h (by simp)
        · rename_i sa hsa
          simp only [Except.ok.injEq] at h
          subst h
          exact ⟨fs, hf, decodeOptInt_ok _ _ hsz, decodeOptInt_ok _ _ hse,
                 decodeOptInt_ok _ _ hsa⟩

theorem decodeTenantConfig_ok (y : Yaml) (t : TenantConfig)
    (h : decodeTenantConfig y = .ok t) :
    ∃ fs, yamlFields y = .ok fs ∧
      decodeOptRequest (fs.lookup "request") = .ok t.request ∧
      t.headSeriesLimit = optIntOf (fs.lookup "head_series_limit") := by
  unfold decodeTenantConfig at h
  split at h
  · exact absurd h (by simp)
  · rename_i fs hf
    split at h
    · exact absurd h (by simp)
    · rename_i r hr
      split at h
      · exact absurd h (by simp)
      · rename_i hl hhl
        simp only [Except.ok.injEq] at h
        subst h
        exact ⟨fs, hf, hr, decodeOptInt_ok _ _ hhl⟩

theorem decodeTenantAt_headSeriesLimit (o : Option Yaml) (t : TenantConfig)
    (h : decodeTenantAt o = .ok t) :
    t.headSeriesLimit = optIntOf (yamlGetPathAt o ["head_series_limit"]) := by
  cases o with
  | none =>
    simp [decodeTenantAt] at h
    simp [← h, TenantConfig.zero, yamlGetPathAt, optIntOf]
  | some y =>
    simp only [decodeTenantAt] at h
    obtain ⟨fs, hf, _, hhl⟩ := decodeTenantConfig_ok y t h
    simpa [yamlGetPathAt, yamlFields_path_one y fs _ hf] using hhl

theorem decodeTenantAt_request_field (o : Option Yaml) (t : TenantConfig)
    (h : decodeTenantAt o = .ok t) (key : String)
    (sel : RequestConfig → Option Int)
    (hsel : ∀ y' r, decodeRequestConfig y' = .ok r →
      ∃ fs, yamlFields y' = .ok fs ∧ sel r = optIntOf (fs.lookup key)) :
    Option.bind t.request sel = optIntOf (yamlGetPathAt o ["request", key]) := by
  cases o with
  | none =>
    simp [decodeTenantAt] at h
    simp [← h, TenantConfig.zero, yamlGetPathAt, optIntOf]
  | some y =>
    simp only [decodeTenantAt] at h
    obtain ⟨fs, hf, hreq, _⟩ := decodeTenantConfig_ok y t h
    have hstep := yamlFields_path_step y fs "request" [key] hf
    simp only [yamlGetPathAt, hstep]
    cases hl : fs.lookup "request" with
    | none =>
      rw [hl] at hreq
      simp [decodeOptRequest] at hreq
      simp [← hreq, yamlGetPathAt, optIntOf]
    | some yr =>
      rw [hl] at hreq
      cases yr with
      | null =>
        simp [decodeOptRequest] at hreq
        simp [← hreq, yamlGetPathAt, yamlGetPath, optIntOf]
      | int v =>
        simp [decodeOptRequest, decodeRequestConfig, yamlFields] at hreq
      | str s =>
        simp [decodeOptRequest, decodeRequestConfig, yamlFields] at hreq
      | map rfs =>
        simp only [decodeOptRequest] at hreq
        split at hreq
        · exact absurd hreq (by simp)
        · rename_i rc hrc
          simp only [Except.ok.injEq] at hreq
          obtain ⟨rfs', hrf, hfield⟩ := hsel _ _ hrc
          rw [← hreq]
          simpa [yamlGetPathAt, yamlFields_path_one _ rfs' _ hrf] using hfield

theorem decodeLimitsAt_parts (o : Option Yaml) (w : LimitsConfig)
    (h : decodeLimitsAt o = .ok w) :
    decodeGlobalAt (yamlGetPathAt o ["global"]) = .ok w.global ∧
    decodeTenantAt (yamlGetPathAt o ["default"]) = .ok w.default := by
  cases o with
  | none =>
    simp [decodeLimitsAt] at h
    simp [← h, LimitsConfig.zero, yamlGetPathAt, decodeGlobalAt, decodeTenantAt]
  | some y =>
    simp only [decodeLimitsAt] at h
    unfold decodeLimitsConfig at h
    split at h
    · exact absurd h (by simp)
    · rename_i fs hf
      split at h
      · exact absurd h (by simp)
      · rename_i g hg
        split at h
        · exact absurd h (by simp)
        · rename_i d hd
          split at h
          · exact absurd h (by simp)
          · rename_i t ht
            simp only [Except.ok.injEq] at h
            subst h
            constructor
            · simpa [yamlGetPathAt, yamlFields_path_one y fs _ hf] using hg
            · simpa [yamlGetPathAt, yamlFields_path_one y fs _ hf] using hd

theorem unmarshalWriteConfig_write (y : Yaml) (c : WriteConfig)
    (h : unmarshalWriteConfig y = .ok c) :
    decodeLimitsAt (yamlGetPath y ["write"]) = .ok c.write := by
  unfold unmarshalWriteConfig at h
  split at h
  · exact absurd h (by simp)
  · rename_i fs hf
    split at h
    · exact absurd h (by simp)
    · rename_i w hw
      simp only [Except.ok.injEq] at h
      subst h
      simpa [yamlFields_path_one y fs _ hf] using hw

theorem marshal_path_maxConcurrency (c : WriteConfig) :
    yamlGetPath (marshalWriteConfig c) ["write", "global", "max_concurrency"] =
      Option.map Yaml.int c.write.global.maxConcurrency := by
  cases hmc : c.write.global.maxConcurrency <;>
    simp [marshalWriteConfig, marshalLimitsConfig, marshalGlobalConfig,
          yamlGetPath, List.lookup, hmc]

theorem marshal_path_headSeriesLimit (c : WriteConfig) :
    yamlGetPath (marshalWriteConfig c) ["write", "default", "head_series_limit"] =
      Option.map Yaml.int c.write.default.headSeriesLimit := by
  cases hr : c.write.default.request <;> cases hh : c.write.default.headSeriesLimit <;>
    simp [marshalWriteConfig, marshalLimitsConfig, marshalGlobalConfig, marshalTenantConfig,
          yamlGetPath, List.lookup, hr, hh]

theorem marshal_path_sizeBytesLimit (c : WriteConfig) :
    yamlGetPath (marshalWriteConfig c) ["write", "default", "request", "size_bytes_limit"] =
      (match c.write.default.request with
       | none => none
       | some r => Option.map Yaml.int r.sizeBytesLimit) := by
  cases hh : c.write.default.headSeriesLimit <;> cases hr : c.write.default.request
  case none.none | some.none =>
    simp [marshalWriteConfig, marshalLimitsConfig, marshalGlobalConfig, marshalTenantConfig,
          yamlGetPath, List.lookup, hr, hh]
  all_goals {
    rename_i r
    cases h1 : r.sizeBytesLimit <;> cases h2 : r.seriesLimit <;> cases h3 : r.samplesLimit <;>
      simp [marshalWriteConfig, marshalLimitsConfig, marshalGlobalConfig, marshalTenantConfig,
            marshalRequestConfig, yamlGetPath, List.lookup, hr, hh, h1, h2, h3]
  }

theorem marshal_path_seriesLimit (c : WriteConfig) :
    yamlGetPath (marshalWriteConfig c) ["write", "default", "request", "series_limit"] =
      (match c.write.default.request with
       | none => none
       | some r => Option.map Yaml.int r.seriesLimit) := by
  cases hh : c.write.default.headSeriesLimit <;> cases hr : c.write.default.request
  case none.none | some.none =>
    simp [marshalWriteConfig, marshalLimitsConfig, marshalGlobalConfig, marshalTenantConfig,
          yamlGetPath, List.lookup, hr, hh]
  all_goals {
    rename_i r
    cases h1 : r.sizeBytesLimit <;> cases h2 : r.seriesLimit <;> cases h3 : r.samplesLimit <;>
      simp [marshalWriteConfig, marshalLimitsConfig, marshalGlobalConfig, marshalTenantConfig,
            marshalRequestConfig, yamlGetPath, List.lookup, hr, hh, h1, h2, h3]
  }

theorem marshal_path_samplesLimit (c : WriteConfig) :
    yamlGetPath (marshalWriteConfig c) ["write", "default", "request", "samples_limit"] =
      (match c.write.default.request with
       | none => none
       | some r => Option.map Yaml.int r.samplesLimit) := by
  cases hh : c.write.default.headSeriesLimit <;> cases hr : c.write.default.request
  case none.none | some.none =>
    simp [marshalWriteConfig, marshalLimitsConfig, marshalGlobalConfig, marshalTenantConfig,
          yamlGetPath, List.lookup, hr, hh]
  all_goals {
    rename_i r
    cases h1 : r.sizeBytesLimit <;> cases h2 : r.seriesLimit <;> cases h3 : r.samplesLimit <;>
      simp [marshalWriteConfig, marshalLimitsConfig, marshalGlobalConfig, marshalTenantConfig,
            marshalRequestConfig, yamlGetPath, List.lookup, hr, hh, h1, h2, h3]
  }

theorem wrap64_eq_of_bounds (x : Int) (h1 : -(2 ^ 63) ≤ x) (h2 : x < 2 ^ 63) :
    wrap64 x = x := by
  unfold wrap64
  omega

theorem wrap32_eq_of_bounds (x : Int) (h1 : -(2 ^ 31) ≤ x) (h2 : x < 2 ^ 31) :
    wrap32 x = x := by
  unfold wrap32
  omega

theorem createGeneratedConfigMap_fst (api : ApiBehavior) (n p : String)
    (doc : WriteConfig) (v : Int) :
    (createGeneratedConfigMap api n p doc v).1 = setDefaultHeadSeriesLimit doc v := by
  cases hc : api.createResult with
  | none => simp [createGeneratedConfigMap, hc]
  | some msg =>
    by_cases hs : strContains msg "already exists" = true
    · cases hg : api.getResult with
      | error e => simp [createGeneratedConfigMap, hc, hs, hg]
      | ok ex => cases hu : api.updateResult <;> simp [createGeneratedConfigMap, hc, hs, hg, hu]
    · simp [createGeneratedConfigMap, hc, hs]

/-- C1: one reconciliation cycle computes the aggregate limit as exactly
`r * c` for non-negative ready-replica count `r` and per-replica capacity
`c` (whenever the product fits a 64-bit `int`), and the published document
carries it as a present `head_series_limit` of the default tenant — at
`r = 0` the value is a present literal `0`, not an unset field. -/
theorem claim_C1_reconcile_writes_product (r cap : Int) (doc : WriteConfig)
    (hr : 0 ≤ r) (hc : 0 ≤ cap) (hb : r * cap < 2 ^ 63) :
    reconcileGlobalLimit r cap = r * cap ∧
    (setDefaultHeadSeriesLimit doc (reconcileGlobalLimit r cap)).write.default.headSeriesLimit
        = some (r * cap) ∧
    yamlGetPath (marshalWriteConfig (setDefaultHeadSeriesLimit doc (reconcileGlobalLimit r cap)))
        ["write", "default", "head_series_limit"] = some (.int (r * cap)) := by
  have hmul : reconcileGlobalLimit r cap = r * cap := by
    unfold reconcileGlobalLimit goMul64
    exact wrap64_eq_of_bounds _ (le_trans (by norm_num) (mul_nonneg hr hc)) hb
  refine ⟨hmul, ?_, ?_⟩
  · simp [setDefaultHeadSeriesLimit, hmul]
  · rw [marshal_path_headSeriesLimit]
    simp [setDefaultHeadSeriesLimit, hmul]

theorem claim_C1_witness :
    reconcileGlobalLimit 0 1000 = 0 ∧
    (setDefaultHeadSeriesLimit baseDoc (reconcileGlobalLimit 0 1000)).write.default.headSeriesLimit
        = some 0 ∧
    yamlGetPath (marshalWriteConfig (setDefaultHeadSeriesLimit baseDoc (reconcileGlobalLimit 0 1000)))
        ["write", "default", "head_series_limit"] = some (.int 0) := by
  have h := claim_C1_reconcile_writes_product 0 1000 baseDoc (by norm_num) (by norm_num)
      (by norm_num)
  simpa using h

/-- C4: reconciliation changes only the default tenant's
`HeadSeriesLimit`; the global section, the default tenant's request
sub-limits and every named-tenant entry of the output document are those of
the input document. -/
theorem claim_C4_frame_only_default_head_series (doc : WriteConfig) (v : Int) :
    (setDefaultHeadSeriesLimit doc v).write.global = doc.write.global ∧
    (setDefaultHeadSeriesLimit doc v).write.default.request = doc.write.default.request ∧
    (setDefaultHeadSeriesLimit doc v).write.tenant = doc.write.tenant ∧
    (setDefaultHeadSeriesLimit doc v).write.default.headSeriesLimit = some v := by
  simp [setDefaultHeadSeriesLimit]

/-- C6: the ready-replica count returned is the sum of the reported
ready-replica counts of all matched StatefulSets (whenever that sum fits an
`int32`), counting a partially-ready group's ready subset. -/
theorem claim_C6_sums_ready_replicas (items : List StatefulSetStatus)
    (hnn : ∀ s ∈ items, 0 ≤ s.readyReplicas)
    (hb : sumReady items < 2 ^ 31) :
    getRunningStatefulSets items = sumReady items := by
  have key : ∀ (l : List StatefulSetStatus) (acc : Int),
      (∀ s ∈ l, 0 ≤ s.readyReplicas) → 0 ≤ acc → acc + sumReady l < 2 ^ 31 →
      l.foldl (fun a s => wrap32 (a + s.readyReplicas)) acc = acc + sumReady l := by
    intro l
    induction l with
    | nil => intro acc _ _ _; simp [sumReady]
    | cons s rest ih =>
      intro acc hl hacc hbd
      have hs : 0 ≤ s.readyReplicas := hl s (by simp)
      have hrest : ∀ x ∈ rest, 0 ≤ x.readyReplicas := fun x hx => hl x (by simp [hx])
      have hsumrest : 0 ≤ sumReady rest := by
        refine List.sum_nonneg ?_
        intro x hx
        obtain ⟨s', hs', rfl⟩ := List.mem_map.mp hx
        exact hrest s' hs'
      have hcons : sumReady (s :: rest) = s.readyReplicas + sumReady rest := by
        simp [sumReady]
      rw [hcons] at hbd
      have hw : wrap32 (acc + s.readyReplicas) = acc + s.readyReplicas :=
        wrap32_eq_of_bounds _ (by omega) (by omega)
      simp only [List.foldl_cons, hw]
      rw [ih (acc + s.readyReplicas) hrest (by omega) (by omega), hcons]
      ring
  have h0 : (0 : Int) + sumReady items < 2 ^ 31 := by omega
  have := key items 0 hnn le_rfl h0
  simpa [getRunningStatefulSets] using this

theorem claim_C6_witness :
    getRunningStatefulSets [⟨"sts-a", 5, 5⟩, ⟨"sts-b", 3, 2⟩, ⟨"sts-c", 4, 0⟩] = 7 := by
  have h := claim_C6_sums_ready_replicas
      [⟨"sts-a", 5, 5⟩, ⟨"sts-b", 3, 2⟩, ⟨"sts-c", 4, 0⟩] (by decide) (by decide)
  rw [h]
  decide

/-- C8: flag validation rejects the per-replica capacity exactly when it is
zero, so every negative `-active-series-max` passes validation and the
cycle then computes and publishes a negative `head_series_limit`
(`readyReplicas * capacity`, which is negative whenever some replicas are
ready and the product fits a 64-bit `int`). -/
theorem claim_C8_negative_capacity_accepted (cfg : CmdConfig) (r : Int) (doc : WriteConfig)
    (hname : cfg.configMapName ≠ "")
    (hgen : cfg.configMapGeneratedName ≠ "")
    (hneg : cfg.activeSeriesMax < 0)
    (hr : 0 < r)
    (hb : -(2 ^ 63) ≤ r * cfg.activeSeriesMax) :
    cfg.validate = .ok () ∧
    { cfg with activeSeriesMax := 0 }.validate
        = .error "missing or invalid flag: -active-series-max" ∧
    reconcileGlobalLimit r cfg.activeSeriesMax = r * cfg.activeSeriesMax ∧
    reconcileGlobalLimit r cfg.activeSeriesMax < 0 ∧
    (setDefaultHeadSeriesLimit doc
        (reconcileGlobalLimit r cfg.activeSeriesMax)).write.default.headSeriesLimit
      = some (r * cfg.activeSeriesMax) := by
  have hne : cfg.activeSeriesMax ≠ 0 := ne_of_lt hneg
  have hprod : r * cfg.activeSeriesMax < 0 := mul_neg_of_pos_of_neg hr hneg
  have hmul : reconcileGlobalLimit r cfg.activeSeriesMax = r * cfg.activeSeriesMax := by
    unfold reconcileGlobalLimit goMul64
    exact wrap64_eq_of_bounds _ hb (lt_trans hprod (by norm_num))
  refine ⟨?_, ?_, hmul, ?_, ?_⟩
  · simp [CmdConfig.validate, hname, hgen, hne]
  · simp [CmdConfig.validate, hname]
  · omega
  · simp [setDefaultHeadSeriesLimit, hmul]

theorem claim_C8_witness :
    CmdConfig.validate ⟨"limits", "config.yaml", "generated", "app=receiver", -100, 0⟩
        = .ok () ∧
    CmdConfig.validate ⟨"limits", "config.yaml", "generated", "app=receiver", 0, 0⟩
        = .error "missing or invalid flag: -active-series-max" ∧
    reconcileGlobalLimit 3 (-100) = -300 ∧
    reconcileGlobalLimit 3 (-100) < 0 ∧
    (setDefaultHeadSeriesLimit baseDoc
        (reconcileGlobalLimit 3 (-100))).write.default.headSeriesLimit = some (-300) := by
  have h := claim_C8_negative_capacity_accepted
      ⟨"limits", "config.yaml", "generated", "app=receiver", -100, 0⟩ 3 baseDoc
      (by decide) (by decide) (by decide) (by decide) (by norm_num)
  simpa using h

/-- C10: `createGeneratedConfigMap` mutates the caller's document in place,
so after publish the caller's in-memory document differs from the document
originally loaded whenever its default head-series limit was not already
the injected value. -/
theorem claim_C10_mutates_caller_document (api : ApiBehavior) (n p : String)
    (doc : WriteConfig) (v : Int)
    (hne : doc.write.default.headSeriesLimit ≠ some v) :
    (createGeneratedConfigMap api n p doc v).1
        = setDefaultHeadSeriesLimit doc v ∧
    (createGeneratedConfigMap api n p doc v).1 ≠ doc := by
  refine ⟨createGeneratedConfigMap_fst api n p doc v, ?_⟩
  rw [createGeneratedConfigMap_fst api n p doc v]
  intro heq
  apply hne
  have hfield := congrArg (fun w => w.write.default.headSeriesLimit) heq
  simpa [setDefaultHeadSeriesLimit] using hfield.symm

theorem claim_C10_witness :
    (createGeneratedConfigMap apiCreateOk "generated" "config.yaml" baseDoc 7).1
        = setDefaultHeadSeriesLimit baseDoc 7 ∧
    (createGeneratedConfigMap apiCreateOk "generated" "config.yaml" baseDoc 7).1 ≠ baseDoc :=
  claim_C10_mutates_caller_document apiCreateOk "generated" "config.yaml" baseDoc 7 (by decide)

theorem yamlGetPathAt_append (o : Option Yaml) (p q : List String) :
    yamlGetPathAt (yamlGetPathAt o p) q = yamlGetPathAt o (p ++ q) := by
  cases o with
  | none => simp [yamlGetPathAt]
  | some y => simp [yamlGetPathAt, yamlGetPath_append]

/-- C5: decoding then re-encoding preserves the absent-versus-zero
distinction of every optional integer field of the limits document: a field
absent in the input is omitted from the output, and a field explicitly `0`
in the input appears as a literal `0` in the output. -/
theorem claim_C5_roundtrip_zero_vs_absent (y : Yaml) (c : WriteConfig)
    (h : unmarshalWriteConfig y = .ok c) :
    ∀ p ∈ [["write", "global", "max_concurrency"],
           ["write", "default", "head_series_limit"],
           ["write", "default", "request", "size_bytes_limit"],
           ["write", "default", "request", "series_limit"],
           ["write", "default", "request", "samples_limit"]],
      (yamlGetPath y p = none → yamlGetPath (marshalWriteConfig c) p = none) ∧
      (yamlGetPath y p = some (.int 0) →
        yamlGetPath (marshalWriteConfig c) p = some (.int 0)) := by
  have hw : decodeLimitsAt (yamlGetPathAt (some y) ["write"]) = .ok c.write :=
    unmarshalWriteConfig_write y c h
  obtain ⟨hg, hd⟩ := decodeLimitsAt_parts _ _ hw
  rw [yamlGetPathAt_append] at hg hd
  have fmc : c.write.global.maxConcurrency
      = optIntOf (yamlGetPath y ["write", "global", "max_concurrency"]) := by
    have := decodeGlobalAt_maxConcurrency _ _ hg
    rwa [yamlGetPathAt_append] at this
  have fhsl : c.write.default.headSeriesLimit
      = optIntOf (yamlGetPath y ["write", "default", "head_series_limit"]) := by
    have := decodeTenantAt_headSeriesLimit _ _ hd
    rwa [yamlGetPathAt_append] at this
  have fsz : Option.bind c.write.default.request (fun r => r.sizeBytesLimit)
      = optIntOf (yamlGetPath y ["write", "default", "request", "size_bytes_limit"]) := by
    have := decodeTenantAt_request_field _ _ hd "size_bytes_limit"
      (fun r => r.sizeBytesLimit)
      (fun y' r h' => by
        obtain ⟨fs, hf, h1, _, _⟩ := decodeRequestConfig_ok y' r h'
        exact ⟨fs, hf, h1⟩)
    rwa [yamlGetPathAt_append] at this
  have fse : Option.bind c.write.default.request (fun r => r.seriesLimit)
      = optIntOf (yamlGetPath y ["write", "default", "request", "series_limit"]) := by
    have := decodeTenantAt_request_field _ _ hd "series_limit"
      (fun r => r.seriesLimit)
      (fun y' r h' => by
        obtain ⟨fs, hf, _, h2, _⟩ := decodeRequestConfig_ok y' r h'
        exact ⟨fs, hf, h2⟩)
    rwa [yamlGetPathAt_append] at this
  have fsa : Option.bind c.write.default.request (fun r => r.samplesLimit)
      = optIntOf (yamlGetPath y ["write", "default", "request", "samples_limit"]) := by
    have := decodeTenantAt_request_field _ _ hd "samples_limit"
      (fun r => r.samplesLimit)
      (fun y' r h' => by
        obtain ⟨fs, hf, _, _, h3⟩ := decodeRequestConfig_ok y' r h'
        exact ⟨fs, hf, h3⟩)
    rwa [yamlGetPathAt_append] at this
  intro p hp
  fin_cases hp
  · constructor
    · intro h0
      rw [h0] at fmc
      rw [marshal_path_maxConcurrency]
      simp [optIntOf] at fmc
      simp [fmc]
    · intro h0
      rw [h0] at fmc
      rw [marshal_path_maxConcurrency]
      simp [optIntOf] at fmc
      simp [fmc]
  · constructor
    · intro h0
      rw [h0] at fhsl
      rw [marshal_path_headSeriesLimit]
      simp [optIntOf] at fhsl
      simp [fhsl]
    · intro h0
      rw [h0] at fhsl
      rw [marshal_path_headSeriesLimit]
      simp [optIntOf] at fhsl
      simp [fhsl]
  · constructor
    · intro h0
      rw [h0] at fsz
      rw [marshal_path_sizeBytesLimit]
      simp [optIntOf] at fsz
      cases hreq : c.write.default.request with
      | none => simp
      | some r => rw [hreq] at fsz; simp at fsz; simp [fsz]
    · intro h0
      rw [h0] at fsz
      rw [marshal_path_sizeBytesLimit]
      simp [optIntOf] at fsz
      cases hreq : c.write.default.request with
      | none => rw [hreq] at fsz; simp at fsz
      | some r => rw [hreq] at fsz; simp at fsz; simp [fsz]
  · constructor
    · intro h0
      rw [h0] at fse
      rw [marshal_path_seriesLimit]
      simp [optIntOf] at fse
      cases hreq : c.write.default.request with
      | none => simp
      | some r => rw [hreq] at fse; simp at fse; simp [fse]
    · intro h0
      rw [h0] at fse
      rw [marshal_path_seriesLimit]
      simp [optIntOf] at fse
      cases hreq : c.write.default.request with
      | none => rw [hreq] at fse; simp at fse
      | some r => rw [hreq] at fse; simp at fse; simp [fse]
  · constructor
    · intro h0
      rw [h0] at fsa
      rw [marshal_path_samplesLimit]
      simp [optIntOf] at fsa
      cases hreq : c.write.default.request with
      | none => simp
      | some r => rw [hreq] at fsa; simp at fsa; simp [fsa]
    · intro h0
      rw [h0] at fsa
      rw [marshal_path_samplesLimit]
      simp [optIntOf] at fsa
      cases hreq : c.write.default.request with
      | none => rw [hreq] at fsa; simp at fsa
      | some r => rw [hreq] at fsa; simp at fsa; simp [fsa]

theorem claim_C5_witness :
    unmarshalWriteConfig sourceYaml = .ok decodedDoc ∧
    yamlGetPath sourceYaml ["write", "global", "max_concurrency"] = none ∧
    yamlGetPath (marshalWriteConfig decodedDoc) ["write", "global", "max_concurrency"]
        = none ∧
    yamlGetPath sourceYaml ["write", "default", "head_series_limit"] = some (.int 0) ∧
    yamlGetPath (marshalWriteConfig decodedDoc) ["write", "default", "head_series_limit"]
        = some (.int 0) ∧
    yamlGetPath sourceYaml ["write", "default", "request", "series_limit"]
        = some (.int 0) ∧
    yamlGetPath (marshalWriteConfig decodedDoc) ["write", "default", "request", "series_limit"]
        = some (.int 0) := by
  have hdec : unmarshalWriteConfig sourceYaml = .ok decodedDoc := by rfl
  have h := claim_C5_roundtrip_zero_vs_absent sourceYaml decodedDoc hdec
  refine ⟨hdec, by rfl, ?_, by rfl, ?_, by rfl, ?_⟩
  · exact (h _ (by simp)).1 (by rfl)
  · exact (h _ (by simp)).2 (by rfl)
  · exact (h _ (by simp)).2 (by rfl)

/-- C3 counterexample: with both the namespace environment variable and the
service-account namespace file available, and giving different namespaces,
the code returns the file's namespace while the order the claim asserts
would return the environment variable's. -/
theorem claim_C3_counterexample :
    getCurrentNamespace ⟨some "ns-from-file", "ns-from-env", none⟩ = "ns-from-file" ∧
    getCurrentNamespaceSpecOrder ⟨some "ns-from-file", "ns-from-env", none⟩ = "ns-from-env" ∧
    "ns-from-file" ≠ "ns-from-env" := by
  refine ⟨rfl, rfl, by decide⟩

/-- C3 amended: namespace resolution tries the in-cluster service-account
namespace file first, then the explicit namespace environment variable,
then the local kubeconfig context's namespace, and finally the hardcoded
default namespace, returning the first source that yields a namespace. -/
theorem claim_C3_amended_resolution_order (env : NamespaceSources) :
    (∀ s, env.serviceAccountNamespaceFile = some s → getCurrentNamespace env = s) ∧
    (env.serviceAccountNamespaceFile = none → env.namespaceEnvVar ≠ "" →
      getCurrentNamespace env = env.namespaceEnvVar) ∧
    (env.serviceAccountNamespaceFile = none → env.namespaceEnvVar = "" →
      ∀ cfg ctx, env.kubeconfigFile = some cfg →
        cfg.contexts.lookup cfg.currentContext = some ctx → ctx.ns ≠ "" →
        getCurrentNamespace env = ctx.ns) ∧
    (env.serviceAccountNamespaceFile = none → env.namespaceEnvVar = "" →
      env.kubeconfigFile = none → getCurrentNamespace env = "default") := by
  refine ⟨?_, ?_, ?_, ?_⟩
  · intro s hs
    simp [getCurrentNamespace, hs]
  · intro hf he
    simp [getCurrentNamespace, hf, he]
  · intro hf he cfg ctx hk hctx hns
    simp [getCurrentNamespace, hf, he, hk, hctx, hns]
  · intro hf he hk
    simp [getCurrentNamespace, hf, he, hk]

theorem claim_C3_witness :
    getCurrentNamespace ⟨some "observability", "", none⟩ = "observability" :=
  (claim_C3_amended_resolution_order ⟨some "observability", "", none⟩).1
    "observability" rfl

/-- C2 (the code as written): when the create of the generated ConfigMap
fails for a reason other than "already exists", `createGeneratedConfigMap`
falls through to `return nil` — it reports success to its caller (so
`main` does not treat the cycle as failed) and attempts no update; the
claim and the specification say such a failure is surfaced as fatal. -/
theorem claim_C2_nonexists_create_failure_swallowed (api : ApiBehavior)
    (n p : String) (doc : WriteConfig) (v : Int) (msg : String)
    (hc : api.createResult = some msg)
    (hae : strContains msg "already exists" = false) :
    (createGeneratedConfigMap api n p doc v).2.2 = .ok () ∧
    (createGeneratedConfigMap api n p doc v).2.1
      = [.create ⟨n, "", [(p, marshalWriteConfig (setDefaultHeadSeriesLimit doc v))]⟩] := by
  simp [createGeneratedConfigMap, hc, hae]

theorem claim_C2_witness :
    (createGeneratedConfigMap apiCreateFails "generated" "config.yaml" baseDoc 7).2.2
      = .ok () ∧
    (createGeneratedConfigMap apiCreateFails "generated" "config.yaml" baseDoc 7).2.1
      = [.create ⟨"generated", "",
          [("config.yaml", marshalWriteConfig (setDefaultHeadSeriesLimit baseDoc 7))]⟩] :=
  claim_C2_nonexists_create_failure_swallowed apiCreateFails "generated" "config.yaml"
    baseDoc 7 "connection refused" rfl (by decide)

/-- C7: when the create fails because the ConfigMap already exists, the
code performs exactly one re-fetch and, if it succeeds, exactly one update
carrying the fetched resource version; if the re-fetch fails, the error is
surfaced and no update call is made. -/
theorem claim_C7_already_exists_single_update (api : ApiBehavior)
    (n p : String) (doc : WriteConfig) (v : Int) (msg : String)
    (hc : api.createResult = some msg)
    (hae : strContains msg "already exists" = true) :
    (∀ existing, api.getResult = .ok existing →
      (createGeneratedConfigMap api n p doc v).2.1
        = [.create ⟨n, "", [(p, marshalWriteConfig (setDefaultHeadSeriesLimit doc v))]⟩,
           .get n,
           .update ⟨n, existing.resourceVersion,
                    [(p, marshalWriteConfig (setDefaultHeadSeriesLimit doc v))]⟩]) ∧
    (∀ gmsg, api.getResult = .error gmsg →
      (createGeneratedConfigMap api n p doc v).2.1
        = [.create ⟨n, "", [(p, marshalWriteConfig (setDefaultHeadSeriesLimit doc v))]⟩,
           .get n] ∧
      (createGeneratedConfigMap api n p doc v).2.2
        = .error ("failed to fetch existing ConfigMap for update: " ++ gmsg)) := by
  constructor
  · intro existing hg
    cases hu : api.updateResult <;>
      simp [createGeneratedConfigMap, hc, hae, hg, hu]
  · intro gmsg hg
    constructor <;> simp [createGeneratedConfigMap, hc, hae, hg]

theorem claim_C7_witness :
    (createGeneratedConfigMap apiExists "generated" "config.yaml" baseDoc 7).2.1
      = [.create ⟨"generated", "",
           [("config.yaml", marshalWriteConfig (setDefaultHeadSeriesLimit baseDoc 7))]⟩,
         .get "generated",
         .update ⟨"generated", "rv-42",
           [("config.yaml", marshalWriteConfig (setDefaultHeadSeriesLimit baseDoc 7))]⟩] :=
  (claim_C7_already_exists_single_update apiExists "generated" "config.yaml" baseDoc 7
      "configmaps \x22generated\x22 already exists" rfl (by decide)).1
    ⟨"generated", "rv-42", [("stale.yaml", Yaml.str "old")]⟩ rfl

/-- C9: every ConfigMap the publish routine writes (the created one and the
one sent on the update path) carries a data map with exactly the single
configured key mapped to the generated document; on update the existing
data map is replaced wholesale by this single-key map, deleting any other
keys. -/
theorem claim_C9_single_key_data (api : ApiBehavior) (n p : String)
    (doc : WriteConfig) (v : Int) :
    ∀ op ∈ (createGeneratedConfigMap api n p doc v).2.1,
      (∀ cm, op = .create cm →
        cm.data = [(p, marshalWriteConfig (setDefaultHeadSeriesLimit doc v))]) ∧
      (∀ cm, op = .update cm →
        cm.data = [(p, marshalWriteConfig (setDefaultHeadSeriesLimit doc v))]) := by
  intro op hop
  cases hc : api.createResult with
  | none =>
    rw [createGeneratedConfigMap] at hop
    simp only [hc] at hop
    simp at hop
    subst hop
    constructor <;> intro cm hcm <;> (cases hcm <;> rfl)
  | some msg =>
    by_cases hs : strContains msg "already exists" = true
    · cases hg : api.getResult with
      | error e =>
        rw [createGeneratedConfigMap] at hop
        simp only [hc, hs, if_true, hg] at hop
        simp at hop
        rcases hop with hop | hop <;> subst hop <;>
          constructor <;> intro cm hcm <;> (cases hcm <;> rfl)
      | ok existing =>
        rw [createGeneratedConfigMap] at hop
        simp only [hc, hs, if_true, hg] at hop
        cases hu : api.updateResult <;> rw [hu] at hop <;> simp at hop <;>
          rcases hop with hop | hop | hop <;> subst hop <;>
          constructor <;> intro cm hcm <;> (cases hcm <;> rfl)
    · rw [createGeneratedConfigMap] at hop
      simp only [hc] at hop
      rw [if_neg hs] at hop
      simp at hop
      subst hop
      constructor <;> intro cm hcm <;> (cases hcm <;> rfl)

theorem claim_C9_witness :
    (ConfigMap.mk "generated" "rv-42"
        [("config.yaml", marshalWriteConfig (setDefaultHeadSeriesLimit baseDoc 7))]).data
      = [("config.yaml", marshalWriteConfig (setDefaultHeadSeriesLimit baseDoc 7))] :=
  (claim_C9_single_key_data apiExists "generated" "config.yaml" baseDoc 7
      (.update ⟨"generated", "rv-42",
        [("config.yaml", marshalWriteConfig (setDefaultHeadSeriesLimit baseDoc 7))]⟩)
      (List.Mem.tail _ (List.Mem.tail _ (List.Mem.head _)))).2
    ⟨"generated", "rv-42",
      [("config.yaml", marshalWriteConfig (setDefaultHeadSeriesLimit baseDoc 7))]⟩ rfl

end ThanosLimits
